import Mathlib

/-!
Shallow embedding of `pkg/config/config.go` (KubeVirt config-disk module).

The module materializes mounted config data into ISO images.  Pure logic is
translated directly; interactions with the outside world (directory listing,
process execution, file creation/truncation) are modelled as explicit oracle
parameters, and the two process-wide creation-strategy slots are modelled as
an explicit record threaded through the functions.  Errors are `Except String`.
-/

/-- Single-quote character as a string (the Go error messages quote paths). -/
def squote : String := String.singleton (Char.ofNat 39)

/-- Base mount directory constant from the source. -/
def mountBaseDir : String := "/var/run/kubevirt-private"

/-- Location where a ConfigMap is attached to the pod. -/
def ConfigMapSourceDir : String := mountBaseDir ++ "/config-map"

/-- Location where Secrets are attached to the pod. -/
def SecretSourceDir : String := mountBaseDir ++ "/secret"

/-- VolumeStatus from the external `v1` API: a volume name and a recorded
byte size (Go `int64`, modelled as `Int`; no arithmetic is performed on it). -/
structure VolumeStatus where
  name : String
  size : Int
  deriving DecidableEq, Repr

/-- The status part of a VirtualMachineInstance that `findIsoSize` reads:
its list of volume statuses. -/
structure VirtualMachineInstanceStatus where
  volumeStatus : List VolumeStatus
  deriving DecidableEq, Repr

/-- VirtualMachineInstance, restricted to the fields this module reads. -/
structure VirtualMachineInstance where
  status : VirtualMachineInstanceStatus
  deriving DecidableEq, Repr

/-- A Volume, restricted to the name field this module reads. -/
structure Volume where
  name : String
  deriving DecidableEq, Repr

/-- The `for _, vs := range vmi.Status.VolumeStatus` loop of `findIsoSize`:
returns the first entry whose name equals the requested volume name. -/
def lookupVolumeStatus : List VolumeStatus → String → Option VolumeStatus
  | [], _ => none
  | vs :: rest, n => if vs.name = n then some vs else lookupVolumeStatus rest n

/-- `findIsoSize(vmi, volume, emptyIso)`: with `emptyIso` true, scan the
volume statuses for a matching name and return its recorded size, or fail
with a volume-not-found error; with `emptyIso` false, return 0. -/
def findIsoSize (vmi : VirtualMachineInstance) (volume : Volume)
    (emptyIso : Bool) : Except String Int :=
  if emptyIso then
    match lookupVolumeStatus vmi.status.volumeStatus volume.name with
    | some vs => Except.ok vs.size
    | none => Except.error ("failed to find the status of volume " ++ volume.name)
  else
    Except.ok 0

/-- The two process-wide creation-strategy slots (`createISOImage` and
`createEmptyISOImage` in the source), modelled as an explicit record. -/
structure Strategies where
  createISOImage : String → String → List String → Except String Unit
  createEmptyISOImage : String → Int → Except String Unit

/-- `setIsoCreationFunction`: replace the populated-image slot. -/
def setIsoCreationFunction (s : Strategies)
    (isoFunc : String → String → List String → Except String Unit) : Strategies :=
  { s with createISOImage := isoFunc }

/-- `setEmptyIsoCreationFunction`: replace the empty-image slot. -/
def setEmptyIsoCreationFunction (s : Strategies)
    (emptyIsoFunc : String → Int → Except String Unit) : Strategies :=
  { s with createEmptyISOImage := emptyIsoFunc }

/-- `createIsoConfigImage(output, volID, files, size)`: dispatch on `size`;
`size == 0` invokes the populated-image slot, anything else the empty-image
slot; the invoked slot's result is returned unchanged. -/
def createIsoConfigImage (s : Strategies) (output : String) (volID : String)
    (files : List String) (size : Int) : Except String Unit :=
  if size = 0 then
    s.createISOImage output volID files
  else
    s.createEmptyISOImage output size

/-- Split a character list on the slash character (helper for `goClean`,
mirroring how Clean walks slash-separated components). -/
def splitOnSlashAux : List Char → List Char → List String
  | [], cur => [String.mk cur.reverse]
  | c :: rest, cur =>
    if c = '/' then String.mk cur.reverse :: splitOnSlashAux rest []
    else splitOnSlashAux rest (c :: cur)

/-- Split a string on the slash character. -/
def splitOnSlash (s : String) : List String := splitOnSlashAux s.data []

/-- Join components with the slash separator (helper for `goClean`). -/
def joinSlash : List String → String
  | [] => ""
  | [x] => x
  | x :: y :: rest => x ++ "/" ++ joinSlash (y :: rest)

/-- Whether a path is rooted, i.e. begins with a slash. -/
def isRooted (s : String) : Bool :=
  match s.data with
  | [] => false
  | c :: _ => c = '/'

/-- Component processing of Go `path/filepath.Clean` (Unix rules), working on
the slash-separated components in reverse-accumulator style: empty and dot
components are dropped, dotdot pops a previous component unless the path is
relative and nothing poppable remains (then it is kept), or the path is
rooted at its start (then it is dropped). -/
def cleanComponents : Bool → List String → List String → List String
  | _, acc, [] => acc
  | rooted, acc, c :: rest =>
    if c = "" ∨ c = "." then
      cleanComponents rooted acc rest
    else if c = ".." then
      match acc with
      | [] => if rooted then cleanComponents rooted [] rest
              else cleanComponents rooted [".."] rest
      | a :: as =>
        if a = ".." then cleanComponents rooted (".." :: a :: as) rest
        else cleanComponents rooted as rest
    else
      cleanComponents rooted (c :: acc) rest

/-- Go `filepath.Clean` for Unix paths. -/
def goClean (path : String) : String :=
  if path = "" then "."
  else
    let rooted := isRooted path
    let comps := splitOnSlash path
    let body := joinSlash (cleanComponents rooted [] comps).reverse
    if rooted then (if body = "" then "/" else "/" ++ body)
    else (if body = "" then "." else body)

/-- Go `filepath.Join` on two elements: skip leading empty elements, join the
rest with a slash, and Clean the result. -/
def goJoin (a b : String) : String :=
  if a ≠ "" then goClean (a ++ "/" ++ b)
  else if b ≠ "" then goClean b
  else ""

/-- `getFilesLayout(dirPath)`: list the directory (via the `readDir` oracle,
standing for `ioutil.ReadDir`) and emit one `name=joinedPath` entry per
immediate entry; on a listing error return that error and no entries. -/
def getFilesLayout (readDir : String → Except String (List String))
    (dirPath : String) : Except String (List String) :=
  match readDir dirPath with
  | Except.error e => Except.error e
  | Except.ok files =>
      Except.ok (files.map (fun fileName => fileName ++ "=" ++ goJoin dirPath fileName))

/-- `defaultCreateIsoImage(output, volID, files)`: default the volume ID to
"cfgdata" when empty, build the fixed xorrisofs argument list followed by the
graft entries, and run the external tool (the `execRun` oracle, standing for
`exec.Command(...).Run()`); its result is returned unchanged. -/
def defaultCreateIsoImage
    (execRun : String → List String → Except String Unit)
    (output : String) (volID : String) (files : List String) : Except String Unit :=
  let volID := if volID = "" then "cfgdata" else volID
  let args := ["-output", output, "-follow-links", "-volid", volID,
               "-joliet", "-rock", "-graft-points", "-partition_cyl_align", "on"]
              ++ files
  let isoBinary := "xorrisofs"
  execRun isoBinary args

/-- `defaultCreateEmptyIsoImage(output, size)`: create the output file (the
`osCreate` oracle, standing for `os.Create`) and set its length (the
`fTruncate` oracle, standing for `f.Truncate`); each failure is replaced by a
fresh message naming only the quoted output path. -/
def defaultCreateEmptyIsoImage
    (osCreate : String → Except String Unit)
    (fTruncate : String → Int → Except String Unit)
    (output : String) (size : Int) : Except String Unit :=
  match osCreate output with
  | Except.error _ =>
      Except.error ("failed to create empty iso: " ++ squote ++ output ++ squote)
  | Except.ok _ =>
      match fTruncate output size with
      | Except.error _ =>
          Except.error ("failed to inflate empty iso: " ++ squote ++ output ++ squote)
      | Except.ok _ => Except.ok ()

/-- Instrumented strategies (a test double, as the unit suite installs via the
setters): each slot returns a distinct, recognizable result, so which slot
`createIsoConfigImage` invoked is observable from the result. -/
def probeStrategies : Strategies :=
  { createISOImage := fun _ _ _ => Except.error "populated-invoked"
    createEmptyISOImage := fun _ _ => Except.error "empty-invoked" }

/-- The composition described by the spec's control flow: resolve the size
with `findIsoSize`, then, if that succeeded, build the image with
`createIsoConfigImage`; a resolution error is returned as is. -/
def isoComposition (s : Strategies) (vmi : VirtualMachineInstance)
    (volume : Volume) (wantEmpty : Bool) (output : String) (volID : String)
    (files : List String) : Except String Unit :=
  match findIsoSize vmi volume wantEmpty with
  | Except.error e => Except.error e
  | Except.ok size => createIsoConfigImage s output volID files size

/-- Concrete instance whose only volume status matches name v1 with size 0. -/
def vmiZero : VirtualMachineInstance := ⟨⟨[⟨"v1", 0⟩]⟩⟩

/-- Concrete instance whose only volume status matches name v1 with size 2048. -/
def vmi2048 : VirtualMachineInstance := ⟨⟨[⟨"v1", 2048⟩]⟩⟩

/-- Concrete instance whose only volume status has the non-matching name v2. -/
def vmiOther : VirtualMachineInstance := ⟨⟨[⟨"v2", 2048⟩]⟩⟩

/-- Concrete target volume named v1. -/
def volV1 : Volume := ⟨"v1"⟩

/-- Concrete directory-listing oracle: the ConfigMap source directory holds
the two files a and b; everything else is missing. -/
def readDirAB : String → Except String (List String) :=
  fun d => if d = ConfigMapSourceDir then Except.ok ["a", "b"]
           else Except.error "ENOENT"

/-- Concrete directory-listing oracle: the Secret source directory exists and
holds nothing; everything else is missing. -/
def readDirNone : String → Except String (List String) :=
  fun d => if d = SecretSourceDir then Except.ok []
           else Except.error "ENOENT"

/-- Concrete process oracle that records the binary and arguments it was
invoked with in its (error) result. -/
def recordExec : String → List String → Except String Unit :=
  fun bin args => Except.error (bin ++ ":" ++ joinSlash args)

/-- Concrete file-creation oracle that always fails with a raw EACCES error. -/
def createFailEACCES : String → Except String Unit :=
  fun _ => Except.error "EACCES"

/-- Concrete file-creation oracle that always succeeds. -/
def osCreateOk : String → Except String Unit := fun _ => Except.ok ()

/-- Concrete truncation oracle that always succeeds. -/
def truncOk : String → Int → Except String Unit := fun _ _ => Except.ok ()

/-- Concrete truncation oracle that always fails with a raw ENOSPC error. -/
def truncFailENOSPC : String → Int → Except String Unit :=
  fun _ _ => Except.error "ENOSPC"

/-- Scanning a list whose prefix has no matching name finds the first
matching entry placed right after that prefix. -/
lemma lookupVolumeStatus_append_first (pre : List VolumeStatus)
    (vs : VolumeStatus) (post : List VolumeStatus) (n : String)
    (hpre : ∀ u ∈ pre, u.name ≠ n) (hvs : vs.name = n) :
    lookupVolumeStatus (pre ++ vs :: post) n = some vs := by
  induction pre with
  | nil => simp [lookupVolumeStatus, hvs]
  | cons u rest ih =>
      have hu : u.name ≠ n := hpre u (by simp)
      simp only [List.cons_append, lookupVolumeStatus, if_neg hu]
      exact ih (fun w hw => hpre w (by simp [hw]))

/-- Scanning finds nothing exactly when no entry has the requested name. -/
lemma lookupVolumeStatus_eq_none_iff (l : List VolumeStatus) (n : String) :
    lookupVolumeStatus l n = none ↔ ∀ vs ∈ l, vs.name ≠ n := by
  induction l with
  | nil => simp [lookupVolumeStatus]
  | cons u rest ih =>
      by_cases hu : u.name = n
      · simp [lookupVolumeStatus, hu]
      · simp [lookupVolumeStatus, hu, ih]

/-- The volume-not-found message is never one of the probe results: its fixed
prefix is already longer than either probe string. -/
lemma notFound_message_ne (n s : String) (hs : s.length < 36) :
    ("failed to find the status of volume " ++ n) ≠ s := by
  intro h
  have hlen := congrArg String.length h
  rw [String.length_append] at hlen
  have h36 : ("failed to find the status of volume ").length = 36 := by decide
  omega

/-- C4: with `wantEmpty` false, `findIsoSize` returns size 0 and no error,
whatever the status snapshot holds. -/
theorem c4_findIsoSize_populated_returns_zero
    (vmi : VirtualMachineInstance) (vol : Volume) :
    findIsoSize vmi vol false = Except.ok 0 := rfl

/-- C9: each strategy setter changes only its own slot:
`setIsoCreationFunction` replaces the populated-image slot and leaves the
empty-image slot unchanged, and `setEmptyIsoCreationFunction` replaces the
empty-image slot and leaves the populated-image slot unchanged. -/
theorem c9_setters_frame (s : Strategies)
    (f : String → String → List String → Except String Unit)
    (g : String → Int → Except String Unit) :
    ((setIsoCreationFunction s f).createISOImage = f ∧
     (setIsoCreationFunction s f).createEmptyISOImage = s.createEmptyISOImage) ∧
    ((setEmptyIsoCreationFunction s g).createEmptyISOImage = g ∧
     (setEmptyIsoCreationFunction s g).createISOImage = s.createISOImage) :=
  ⟨⟨rfl, rfl⟩, ⟨rfl, rfl⟩⟩

/-- C2: `createIsoConfigImage` invokes the populated-image slot with the file
entries when size is 0 and otherwise the empty-image slot with exactly that
size, and returns exactly the invoked slot's result. -/
theorem c2_dispatch (s : Strategies) (output volID : String)
    (files : List String) (size : Int) :
    (size = 0 →
      createIsoConfigImage s output volID files size =
        s.createISOImage output volID files) ∧
    (size ≠ 0 →
      createIsoConfigImage s output volID files size =
        s.createEmptyISOImage output size) := by
  constructor <;> intro h <;> simp [createIsoConfigImage, h]

/-- C2 witness: both dispatch branches at concrete inputs. -/
theorem c2_dispatch_witness :
    createIsoConfigImage probeStrategies "/out.iso" "v" ["a=/d/a"] 0 =
      probeStrategies.createISOImage "/out.iso" "v" ["a=/d/a"] ∧
    createIsoConfigImage probeStrategies "/out.iso" "v" ["a=/d/a"] 4096 =
      probeStrategies.createEmptyISOImage "/out.iso" 4096 :=
  ⟨(c2_dispatch probeStrategies "/out.iso" "v" ["a=/d/a"] 0).1 rfl,
   (c2_dispatch probeStrategies "/out.iso" "v" ["a=/d/a"] 4096).2 (by decide)⟩

/-- C3: with `wantEmpty` true, `findIsoSize` returns the recorded size of the
first matching volume-status entry, and it produces the volume-not-found
error naming the volume exactly when no entry matches. -/
theorem c3_findIsoSize_empty (vmi : VirtualMachineInstance) (vol : Volume) :
    (∀ pre vs post, vmi.status.volumeStatus = pre ++ vs :: post →
        (∀ u ∈ pre, u.name ≠ vol.name) → vs.name = vol.name →
        findIsoSize vmi vol true = Except.ok vs.size) ∧
    (findIsoSize vmi vol true =
        Except.error ("failed to find the status of volume " ++ vol.name) ↔
      ∀ vs ∈ vmi.status.volumeStatus, vs.name ≠ vol.name) := by
  constructor
  · intro pre vs post hl hpre hvs
    have hfind := lookupVolumeStatus_append_first pre vs post vol.name hpre hvs
    simp [findIsoSize, hl, hfind]
  · constructor
    · intro h
      rw [← lookupVolumeStatus_eq_none_iff]
      cases hfind : lookupVolumeStatus vmi.status.volumeStatus vol.name with
      | none => rfl
      | some vs => simp [findIsoSize, hfind] at h
    · intro h
      have hfind := (lookupVolumeStatus_eq_none_iff vmi.status.volumeStatus vol.name).mpr h
      simp [findIsoSize, hfind]

/-- C3 witness: the matching entry's size 2048 is returned, and a snapshot
with only a non-matching entry yields the volume-not-found error. -/
theorem c3_findIsoSize_empty_witness :
    findIsoSize vmi2048 volV1 true = Except.ok 2048 ∧
    findIsoSize vmiOther volV1 true =
      Except.error "failed to find the status of volume v1" :=
  ⟨(c3_findIsoSize_empty vmi2048 volV1).1 [] ⟨"v1", 2048⟩ [] rfl
      (by intro u hu; cases hu) rfl,
   (c3_findIsoSize_empty vmiOther volV1).2.mpr (by decide)⟩

/-- C5: `defaultCreateIsoImage` invokes the external tool with exactly the
fixed flag sequence followed by the file entries, with the caller's volume ID
in place, except that the fallback label cfgdata replaces an empty ID. -/
theorem c5_default_iso_args
    (execRun : String → List String → Except String Unit)
    (output volID : String) (files : List String) :
    (volID ≠ "" →
      defaultCreateIsoImage execRun output volID files =
        execRun "xorrisofs"
          (["-output", output, "-follow-links", "-volid", volID, "-joliet",
            "-rock", "-graft-points", "-partition_cyl_align", "on"] ++ files)) ∧
    (volID = "" →
      defaultCreateIsoImage execRun output volID files =
        execRun "xorrisofs"
          (["-output", output, "-follow-links", "-volid", "cfgdata", "-joliet",
            "-rock", "-graft-points", "-partition_cyl_align", "on"] ++ files)) := by
  constructor <;> intro h <;> simp [defaultCreateIsoImage, h]

/-- C5 witness: the recorded invocation at a nonempty and at an empty volume
ID, the latter showing the cfgdata fallback. -/
theorem c5_default_iso_args_witness :
    defaultCreateIsoImage recordExec "/out.iso" "myvol" ["a=/d/a"] =
      recordExec "xorrisofs"
        ["-output", "/out.iso", "-follow-links", "-volid", "myvol", "-joliet",
         "-rock", "-graft-points", "-partition_cyl_align", "on", "a=/d/a"] ∧
    defaultCreateIsoImage recordExec "/out.iso" "" [] =
      recordExec "xorrisofs"
        ["-output", "/out.iso", "-follow-links", "-volid", "cfgdata", "-joliet",
         "-rock", "-graft-points", "-partition_cyl_align", "on"] :=
  ⟨(c5_default_iso_args recordExec "/out.iso" "myvol" ["a=/d/a"]).1 (by decide),
   (c5_default_iso_args recordExec "/out.iso" "" []).2 rfl⟩

/-- C6: a successful listing yields exactly one entry per immediate directory
entry, each of the form name, equals sign, directory path joined with the
name, in listing order. -/
theorem c6_getFilesLayout_maps_entries
    (readDir : String → Except String (List String))
    (dirPath : String) (files : List String)
    (h : readDir dirPath = Except.ok files) :
    getFilesLayout readDir dirPath =
      Except.ok (files.map (fun n => n ++ "=" ++ goJoin dirPath n)) := by
  simp [getFilesLayout, h]

/-- C6 witness: a directory holding files a and b yields the two
name-equals-joined-path entries. -/
theorem c6_getFilesLayout_maps_entries_witness :
    getFilesLayout readDirAB ConfigMapSourceDir =
      Except.ok ["a=/var/run/kubevirt-private/config-map/a",
                 "b=/var/run/kubevirt-private/config-map/b"] := by
  rw [c6_getFilesLayout_maps_entries readDirAB ConfigMapSourceDir ["a", "b"] rfl]
  rfl

/-- C8: a failed listing makes `getFilesLayout` return exactly the
filesystem error and no entries at all. -/
theorem c8_getFilesLayout_error
    (readDir : String → Except String (List String))
    (dirPath : String) (e : String)
    (h : readDir dirPath = Except.error e) :
    getFilesLayout readDir dirPath = Except.error e := by
  simp [getFilesLayout, h]

/-- C8 witness: a missing directory propagates the ENOENT error. -/
theorem c8_getFilesLayout_error_witness :
    getFilesLayout readDirAB "/nonexistent" = Except.error "ENOENT" :=
  c8_getFilesLayout_error readDirAB "/nonexistent" "ENOENT" rfl

/-- C10: an existing directory with no entries yields a successful, empty
layout. -/
theorem c10_getFilesLayout_nil
    (readDir : String → Except String (List String)) (dirPath : String)
    (h : readDir dirPath = Except.ok []) :
    getFilesLayout readDir dirPath = Except.ok [] := by
  simp [getFilesLayout, h]

/-- C10 witness: the empty Secret source directory yields the empty layout. -/
theorem c10_getFilesLayout_nil_witness :
    getFilesLayout readDirNone SecretSourceDir = Except.ok [] :=
  c10_getFilesLayout_nil readDirNone SecretSourceDir rfl

/-- C1 counterexample: with a status snapshot whose matching entry for v1
records size 0 and with `wantEmpty` true, the claimed right-hand side holds
(an entry with the target name exists), yet the composition invokes the
populated-image slot, not the empty-image slot — refuting the claimed
if-and-only-if at this concrete input. -/
theorem c1_counterexample :
    (∃ vs ∈ vmiZero.status.volumeStatus, vs.name = volV1.name) ∧
    isoComposition probeStrategies vmiZero volV1 true "/out.iso" "" [] =
      Except.error "populated-invoked" ∧
    isoComposition probeStrategies vmiZero volV1 true "/out.iso" "" [] ≠
      Except.error "empty-invoked" := by
  refine ⟨⟨⟨"v1", 0⟩, by decide, rfl⟩, rfl, ?_⟩
  intro h
  have h' : (Except.error "populated-invoked" : Except String Unit) =
      Except.error "empty-invoked" := h
  simp only [Except.error.injEq] at h'
  exact absurd h' (by decide)

/-- C1 (amended): the composition of `findIsoSize` and `createIsoConfigImage`
invokes the empty-image slot if and only if the caller requests an empty
image, a status entry matching the volume name exists, and the first such
entry's recorded size is nonzero (a recorded size of 0 routes the build to
the populated-image slot instead). -/
theorem c1_empty_mode_iff (vmi : VirtualMachineInstance) (vol : Volume)
    (wantEmpty : Bool) (output volID : String) (files : List String) :
    isoComposition probeStrategies vmi vol wantEmpty output volID files =
      Except.error "empty-invoked" ↔
    (wantEmpty = true ∧
      ∃ vs, lookupVolumeStatus vmi.status.volumeStatus vol.name = some vs ∧
        vs.size ≠ 0) := by
  cases wantEmpty with
  | false =>
      constructor
      · intro h
        have h' : (Except.error "populated-invoked" : Except String Unit) =
            Except.error "empty-invoked" := h
        simp only [Except.error.injEq] at h'
        exact absurd h' (by decide)
      · intro h
        exact absurd h.1 (by decide)
  | true =>
      cases hfind : lookupVolumeStatus vmi.status.volumeStatus vol.name with
      | none =>
          have hres : isoComposition probeStrategies vmi vol true output volID files =
              Except.error ("failed to find the status of volume " ++ vol.name) := by
            simp [isoComposition, findIsoSize, hfind]
          rw [hres]
          constructor
          · intro h
            simp only [Except.error.injEq] at h
            exact absurd h (notFound_message_ne vol.name "empty-invoked" (by decide))
          · rintro ⟨-, vs, hvs, -⟩
            exact Option.noConfusion hvs
      | some vs =>
          have hres : isoComposition probeStrategies vmi vol true output volID files =
              createIsoConfigImage probeStrategies output volID files vs.size := by
            simp [isoComposition, findIsoSize, hfind]
          rw [hres]
          by_cases hz : vs.size = 0
          · have hdis : createIsoConfigImage probeStrategies output volID files vs.size =
                Except.error "populated-invoked" := by
              simp [createIsoConfigImage, hz, probeStrategies]
            rw [hdis]
            constructor
            · intro h
              simp only [Except.error.injEq] at h
              exact absurd h (by decide)
            · rintro ⟨-, vs', hvs', hsz⟩
              injection hvs' with hvv
              rw [← hvv] at hsz
              exact absurd hz hsz
          · have hdis : createIsoConfigImage probeStrategies output volID files vs.size =
                Except.error "empty-invoked" := by
              simp [createIsoConfigImage, hz, probeStrategies]
            rw [hdis]
            exact ⟨fun _ => ⟨rfl, vs, rfl, hz⟩, fun _ => rfl⟩

/-- C1 witness: with a matching entry of nonzero recorded size 2048 and
`wantEmpty` true, the empty-image slot is the one invoked. -/
theorem c1_empty_mode_iff_witness :
    isoComposition probeStrategies vmi2048 volV1 true "/out.iso" "" [] =
      Except.error "empty-invoked" :=
  (c1_empty_mode_iff vmi2048 volV1 true "/out.iso" "" []).mpr
    ⟨rfl, ⟨"v1", 2048⟩, by decide, by decide⟩

/-- C7 counterexample: when file creation fails with the raw error EACCES,
the returned error names the quoted output path but the underlying
filesystem error text appears nowhere in it — it is replaced, not surfaced
verbatim as the claim states. -/
theorem c7_counterexample :
    createFailEACCES "/out.iso" = Except.error "EACCES" ∧
    defaultCreateEmptyIsoImage createFailEACCES truncOk "/out.iso" 4096 =
      Except.error ("failed to create empty iso: " ++ squote ++ "/out.iso" ++ squote) ∧
    ¬ List.IsInfix ("EACCES".data)
        (("failed to create empty iso: " ++ squote ++ "/out.iso" ++ squote).data) :=
  ⟨rfl, rfl, by decide⟩

/-- C7 (amended): when creating the output file fails, the error returned
names the quoted output path in a creation-failure message, and when setting
its length fails, the error names the quoted output path in a resize-failure
message; in both cases the message is fixed apart from the path, and the
underlying filesystem error is not included. -/
theorem c7_empty_iso_error_wrapping
    (osCreate : String → Except String Unit)
    (fTruncate : String → Int → Except String Unit)
    (output : String) (size : Int) :
    (∀ e, osCreate output = Except.error e →
      defaultCreateEmptyIsoImage osCreate fTruncate output size =
        Except.error ("failed to create empty iso: " ++ squote ++ output ++ squote)) ∧
    (∀ e, osCreate output = Except.ok () → fTruncate output size = Except.error e →
      defaultCreateEmptyIsoImage osCreate fTruncate output size =
        Except.error ("failed to inflate empty iso: " ++ squote ++ output ++ squote)) := by
  constructor
  · intro e h
    simp [defaultCreateEmptyIsoImage, h]
  · intro e h1 h2
    simp [defaultCreateEmptyIsoImage, h1, h2]

/-- C7 witness: both failure branches at concrete oracles, showing the
creation-failure and the resize-failure messages with the quoted path. -/
theorem c7_empty_iso_error_wrapping_witness :
    defaultCreateEmptyIsoImage createFailEACCES truncOk "/a.iso" 1 =
      Except.error ("failed to create empty iso: " ++ squote ++ "/a.iso" ++ squote) ∧
    defaultCreateEmptyIsoImage osCreateOk truncFailENOSPC "/a.iso" 1 =
      Except.error ("failed to inflate empty iso: " ++ squote ++ "/a.iso" ++ squote) :=
  ⟨(c7_empty_iso_error_wrapping createFailEACCES truncOk "/a.iso" 1).1 "EACCES" rfl,
   (c7_empty_iso_error_wrapping osCreateOk truncFailENOSPC "/a.iso" 1).2 "ENOSPC" rfl rfl⟩
